import Mathlib

/-!
# Verification of the sale-squid review-analysis pipeline

A shallow embedding of the non-UI logic of `src/src/App.tsx`: the strength
scorer (`reviewStrength`), the prompt construction, the submission function
(`analyzeReviews`), the paste handler (`handlePaste`), and the derived
annual-increment metric, together with theorems settling the specified
properties.

Modelling conventions:
* JavaScript numbers are modelled as rationals (`ℚ`); the values involved in
  the claims are small integers where double-precision arithmetic is exact.
* `JSON.parse` is external to the repository; its outcome on a response body
  is modelled abstractly by `Body` (a body is either absent/empty — which the
  code replaces by the literal `'{}'` — syntactically unparseable, or parses
  to a JSON value).
* React state setters become explicit record updates on `AppState`; the
  single `await`ed generation call is modelled by a `GenOutcome` parameter
  giving the call's outcome, and the number of outbound calls made by a
  handler is returned alongside the final state.
* JavaScript `String.prototype.trim` and `split(/\s+/)` are modelled on the
  underlying character list (`jsTrim`, `splitWs`), which agrees with them on
  the usual whitespace characters.
-/

namespace SaleSquid

/-- JSON values, the possible results of `JSON.parse` on a response body. -/
inductive Json where
  | null : Json
  | bool (b : Bool) : Json
  | num (q : ℚ) : Json
  | str (s : String) : Json
  | arr (elems : List Json) : Json
  | obj (fields : List (String × Json)) : Json
deriving Repr

/-- Whether a parsed JSON object carries a top-level field named `key`. -/
def Json.hasField : Json → String → Bool
  | .obj fields, key => fields.any (fun f => f.1 == key)
  | _, _ => false

/-- Model of JavaScript whitespace trimming on the character list. -/
def trimChars (l : List Char) : List Char :=
  ((l.dropWhile Char.isWhitespace).reverse.dropWhile Char.isWhitespace).reverse

/-- Model of `String.prototype.trim`. -/
def jsTrim (s : String) : String :=
  ⟨trimChars s.data⟩

/-- Splitting a character list at every whitespace character (adjacent
separators produce empty pieces, which the caller filters out, matching
`split(/\s+/)` followed by the non-empty filter in the source). -/
def splitWs : List Char → List (List Char)
  | [] => [[]]
  | c :: cs =>
    match splitWs cs with
    | [] => [[]]
    | w :: ws => if c.isWhitespace then [] :: w :: ws else (c :: w) :: ws

/-- `reviews.trim().split(/\s+/).filter(w => w.length > 0).length`
(App.tsx line 54): the number of non-empty whitespace-separated tokens. -/
def countWords (s : String) : Nat :=
  ((splitWs (jsTrim s).data).filter (fun w => 0 < w.length)).length

/-- The record returned by the strength scorer (label, bar colour class,
bar width). -/
structure StrengthInfo where
  label : String
  color : String
  width : String
deriving Repr, DecidableEq

/-- The `reviewStrength` memo of App.tsx lines 53-60. -/
def reviewStrength (reviews : String) : StrengthInfo :=
  let words := countWords reviews
  if words = 0 then ⟨"Empty", "bg-slate-200", "0%"⟩
  else if words < 10 then ⟨"Weak", "bg-red-400", "25%"⟩
  else if words < 30 then ⟨"Fair", "bg-amber-400", "50%"⟩
  else if words < 60 then ⟨"Good", "bg-indigo-400", "75%"⟩
  else ⟨"Excellent", "bg-emerald-500", "100%"⟩

/-- Modelled from the spec (§4.1): the threshold table mapping the token
count to a (label, display-width) pair: n=0 → Empty/0%; 1≤n<10 → Weak/25%;
10≤n<30 → Fair/50%; 30≤n<60 → Good/75%; n≥60 → Excellent/100%. -/
def specStrength (n : Nat) : String × String :=
  if n = 0 then ("Empty", "0%")
  else if 1 ≤ n ∧ n < 10 then ("Weak", "25%")
  else if 10 ≤ n ∧ n < 30 then ("Fair", "50%")
  else if 30 ≤ n ∧ n < 60 then ("Good", "75%")
  else ("Excellent", "100%")

/-- Opening fragment of the generation prompt, up to the interpolated
language (App.tsx line 72). -/
def promptHeader : String :=
  "Analyze the following customer reviews (Input Language: "

/-- Prompt fragment between the interpolated language and the interpolated
review text (App.tsx lines 72-75). -/
def promptAfterLang : String :=
  ") and provide a comprehensive sales and marketing strategy specifically designed to maximize the company\x27s Annual Sale Growth Rate.\n        \n        Reviews:\n        "

/-- `promptAfterLang` with its leading close-parenthesis removed. -/
def promptAfterLangTail : String :=
  " and provide a comprehensive sales and marketing strategy specifically designed to maximize the company\x27s Annual Sale Growth Rate.\n        \n        Reviews:\n        "

/-- Prompt fragment following the interpolated review text (App.tsx
lines 76-84). -/
def promptFooter : String :=
  "\n        \n        Focus on:\n        1. Identifying core customer problems (pain points) that are currently capping growth.\n        2. Identifying specific \"Growth Levers\" - areas where improvements will directly impact the Annual Sale Growth Rate.\n        3. Providing actionable marketing and sales solutions to overcome sales blockers.\n        4. Creating a professional \"Strategic Sales Growth Plan\" structured with pillars like Market Expansion, Sales Enablement, and Customer Lifetime Value (CLV) optimization, including specific quarterly milestones.\n        5. Providing a 6-month data projection (current vs projected revenue growth in percentage) showing the acceleration of the growth rate.\n        \n        Note: If the reviews are in a language other than English, please "

/-- The explicit translation instruction at the end of the prompt. -/
def translateInstruction : String :=
  "translate the core insights internally to provide the strategy in English"

/-- The generation prompt of App.tsx lines 72-84: the template literal with
`language` and `finalReviews` interpolated. -/
def buildPrompt (finalReviews language : String) : String :=
  promptHeader ++ language ++ promptAfterLang ++ finalReviews ++ promptFooter
    ++ translateInstruction ++ "."

/-- The outcome of `JSON.parse(response.text || '{}')` on one response:
`empty` models a falsy `response.text` (absent or empty string), which the
source replaces by `'{}'`; `unparseable` a non-empty body `JSON.parse`
throws on; `parsed j` a body parsing to the JSON value `j`. -/
inductive Body where
  | empty : Body
  | unparseable : Body
  | parsed (j : Json) : Body

/-- `JSON.parse(response.text || '{}')` (App.tsx line 114): the only
response processing the source performs. No field of the parsed value is
inspected. -/
def parseBody : Body → Except Unit Json
  | .empty => .ok (.obj [])
  | .unparseable => .error ()
  | .parsed j => .ok j

/-- Outcome of the single awaited generation call: the call throws
(`failure`, covering transport/auth/quota errors) or returns a response
whose body is `body`. -/
inductive GenOutcome where
  | failure : GenOutcome
  | success (body : Body) : GenOutcome

/-- The React state of the `App` component (App.tsx lines 41-45): the
textarea contents, the in-flight flag, the retained result, the retained
error message, and the selected review language. The stored result is a raw
parsed JSON value, exactly as `setResult` receives it. -/
structure AppState where
  reviews : String
  isAnalyzing : Bool
  result : Option Json
  error : Option String
  language : String
deriving Repr

/-- The component's initial state (App.tsx lines 41-45). -/
def initialState : AppState :=
  { reviews := "", isAnalyzing := false, result := none, error := none,
    language := "Auto-detect" }

/-- `const finalReviews = textToUse || reviews` (App.tsx line 63): a falsy
argument (absent or the empty string) falls back to the textarea state. -/
def resolveText : Option String → AppState → String
  | some t, s => if t = "" then s.reviews else t
  | none, s => s.reviews

/-- The generic failure message of App.tsx line 118. -/
def analyzeFailMsg : String :=
  "Failed to analyze reviews. Please try again."

/-- The synchronous part of `analyzeReviews` before the awaited call
(App.tsx lines 62-67): resolve the text, silently return on blank text,
otherwise set the in-flight flag and clear the error. Returns `none` on the
silent rejection and the intermediate state otherwise. -/
def beginAnalyze (s : AppState) (textToUse : Option String) : Option AppState :=
  if jsTrim (resolveText textToUse s) = "" then none
  else some { s with isAnalyzing := true, error := none }

/-- The continuation of `analyzeReviews` after the awaited call (App.tsx
lines 114-121): on a successful parse store the raw value, otherwise (the
call threw, or `JSON.parse` threw) log and set the generic error message;
the `finally` block resets the in-flight flag on every path. The returned
flag records whether `console.error` ran. -/
def completeAnalyze (s : AppState) (outcome : GenOutcome) : AppState × Bool :=
  match outcome with
  | .failure => ({ s with error := some analyzeFailMsg, isAnalyzing := false }, true)
  | .success body =>
    match parseBody body with
    | .ok j => ({ s with result := some j, isAnalyzing := false }, false)
    | .error _ => ({ s with error := some analyzeFailMsg, isAnalyzing := false }, true)

/-- A full run of a submission handler: the final state, the number of
outbound generation calls made, whether `console.error` ran, and the prompt
sent (if a call was made). -/
structure RunResult where
  state : AppState
  calls : Nat
  logged : Bool
  prompt : Option String
deriving Repr

/-- A full run of `analyzeReviews` (App.tsx lines 62-122), given the outcome
of the generation call it makes (if it makes one). -/
def analyzeReviews (s : AppState) (textToUse : Option String)
    (outcome : GenOutcome) : RunResult :=
  match beginAnalyze s textToUse with
  | none => ⟨s, 0, false, none⟩
  | some s1 =>
    let done := completeAnalyze s1 outcome
    ⟨done.1, 1, done.2, some (buildPrompt (resolveText textToUse s) s.language)⟩

/-- The paste handler (App.tsx lines 124-130): if the clipboard text trims
to non-empty, replace the textarea state with it and submit exactly it;
otherwise do nothing. -/
def handlePaste (s : AppState) (pastedText : String) (outcome : GenOutcome) :
    RunResult :=
  if jsTrim pastedText ≠ "" then
    analyzeReviews { s with reviews := pastedText } (some pastedText) outcome
  else ⟨s, 0, false, none⟩

/-- The generate-strategy button path (App.tsx lines 315-317): the button is
disabled while `isAnalyzing` or while the textarea trims to empty, so its
`onClick` (a plain `analyzeReviews()`) only fires otherwise. -/
def buttonSubmit (s : AppState) (outcome : GenOutcome) : RunResult :=
  if s.isAnalyzing || jsTrim s.reviews = "" then ⟨s, 0, false, none⟩
  else analyzeReviews s none outcome

/-- The example review text of App.tsx lines 300-307. -/
def exampleText : String :=
  "- The checkout process is too long and confusing. I almost gave up.\n- I love the product but shipping took 3 weeks without any updates.\n- Customer support didn\x27t respond to my email for 4 days.\n- The mobile app crashes whenever I try to apply a discount code.\n- Prices are a bit higher than competitors, but the quality is better.\n- I wish there was a subscription option for recurring orders.\n- The website is slow to load on my phone.\n- Finding specific items in the search bar is frustratingly difficult."

/-- The try-with-example button path (App.tsx lines 298-310): always
enabled; sets the textarea to the example text and submits it. -/
def exampleSubmit (s : AppState) (outcome : GenOutcome) : RunResult :=
  analyzeReviews { s with reviews := exampleText } (some exampleText) outcome

/-- One point of the growth projection (App.tsx line 36). -/
structure GrowthPoint where
  month : String
  current : ℚ
  projected : ℚ
deriving Repr

/-- The `AnalysisResult` interface of App.tsx lines 30-38 (the shape a
well-formed response is expected to have). -/
structure AnalysisResult where
  painPoints : List String
  sentiment : String
  salesBlockers : List String
  marketingStrategy : String
  salesStrategy : String
  growthProjection : List GrowthPoint
  annualIncrementPlan : String
deriving Repr

/-- `Math.round`: round half towards positive infinity. -/
def jsRound (q : ℚ) : ℤ :=
  ⌊q + 1 / 2⌋

/-- The estimated annual increment of App.tsx line 496:
`Math.round((growthProjection[5].projected - growthProjection[0].current) * 2.5)`.
Out-of-range indexing (impossible for a result with ≥ 6 points) is given the
zero point as default. -/
def annualIncrementEstimate (r : AnalysisResult) : ℤ :=
  jsRound (((r.growthProjection.getD 5 ⟨"", 0, 0⟩).projected
    - (r.growthProjection.getD 0 ⟨"", 0, 0⟩).current) * (5 / 2))

/-- Modelled from the spec (§4.6): `round((projection[5].projected -
projection[0].current) * 2.5)`, the percentage-point gap between the sixth
projected value and the first current value scaled by 2.5. -/
def specAnnualIncrement (r : AnalysisResult) : ℤ :=
  jsRound (((r.growthProjection.getD 5 ⟨"", 0, 0⟩).projected
    - (r.growthProjection.getD 0 ⟨"", 0, 0⟩).current) * (5 / 2))

/-- The concrete projection of the spec's §8 test property: first point has
current 5, sixth point has projected 45. -/
def sampleProjection : List GrowthPoint :=
  [⟨"Month 1", 5, 10⟩, ⟨"Month 2", 6, 16⟩, ⟨"Month 3", 7, 23⟩,
   ⟨"Month 4", 8, 30⟩, ⟨"Month 5", 9, 38⟩, ⟨"Month 6", 10, 45⟩]

/-- A validated result carrying `sampleProjection`. -/
def sampleResult : AnalysisResult :=
  { painPoints := ["slow shipping"], sentiment := "Mixed",
    salesBlockers := ["checkout friction"], marketingStrategy := "m",
    salesStrategy := "s", growthProjection := sampleProjection,
    annualIncrementPlan := "p" }

/-- A state whose previous submission succeeded: a retained result and no
error. -/
def priorResultState : AppState :=
  { reviews := "new batch of reviews", isAnalyzing := false,
    result := some (.obj [("sentiment", .str "Positive")]), error := none,
    language := "Auto-detect" }

/-- A state with a generation call in flight. -/
def analyzingState : AppState :=
  { reviews := "old reviews", isAnalyzing := true, result := none,
    error := none, language := "Auto-detect" }

/-- A syntactically valid response body that carries all seven mandatory
fields but only a single growth-projection entry. -/
def shortProjectionResponse : Json :=
  .obj [("painPoints", .arr [.str "slow shipping"]),
        ("sentiment", .str "Mixed"),
        ("salesBlockers", .arr []),
        ("marketingStrategy", .str "m"),
        ("salesStrategy", .str "s"),
        ("annualIncrementPlan", .str "p"),
        ("growthProjection", .arr [.obj [("month", .str "Month 1"),
          ("current", .num 5), ("projected", .num 10)]])]

/-! ## Helper lemmas -/

/-- Re-associating the prompt header around the language marker. -/
lemma headerSplit (r : String) :
    "Analyze the following customer reviews " ++ ("(Input Language: " ++ r)
      = "Analyze the following customer reviews (Input Language: " ++ r := by
  rw [← String.append_assoc]
  rfl

/-- `completeAnalyze` never touches the textarea state. -/
lemma completeAnalyze_reviews (s : AppState) (o : GenOutcome) :
    ((completeAnalyze s o).1).reviews = s.reviews := by
  cases o with
  | failure => rfl
  | success b => cases b <;> rfl

/-- An accepted submission makes exactly one generation call and runs the
continuation on the intermediate in-flight state. -/
lemma analyzeReviews_started (s : AppState) (t : Option String) (o : GenOutcome)
    (h : jsTrim (resolveText t s) ≠ "") :
    analyzeReviews s t o =
      ⟨(completeAnalyze { s with isAnalyzing := true, error := none } o).1, 1,
        (completeAnalyze { s with isAnalyzing := true, error := none } o).2,
        some (buildPrompt (resolveText t s) s.language)⟩ := by
  simp [analyzeReviews, beginAnalyze, h]

/-- An accepted submission makes exactly one generation call. -/
lemma analyzeReviews_calls (s : AppState) (t : Option String) (o : GenOutcome)
    (h : jsTrim (resolveText t s) ≠ "") :
    (analyzeReviews s t o).calls = 1 := by
  rw [analyzeReviews_started s t o h]

/-- A non-empty explicit argument is used as the submission text. -/
lemma resolveText_some (s : AppState) (t : String) (h : t ≠ "") :
    resolveText (some t) s = t := by
  simp [resolveText, h]

/-- After setting the textarea to `p`, submitting with explicit argument `p`
resolves to `p` whether or not `p` is empty. -/
lemma resolveText_self (s : AppState) (p : String) :
    resolveText (some p) { s with reviews := p } = p := by
  by_cases h : p = "" <;> simp [resolveText, h]

/-! ## Claims -/

/-- C1, counterexample: the response handling performs no field validation.
The body parsing to the empty object — which is missing all seven mandatory
fields — is accepted and stored as the result with no error, and so is a
body carrying all seven fields but only one growth-projection entry. -/
theorem C1_counterexample :
    Json.hasField (.obj []) "painPoints" = false ∧
    Json.hasField (.obj []) "sentiment" = false ∧
    Json.hasField (.obj []) "salesBlockers" = false ∧
    Json.hasField (.obj []) "marketingStrategy" = false ∧
    Json.hasField (.obj []) "salesStrategy" = false ∧
    Json.hasField (.obj []) "annualIncrementPlan" = false ∧
    Json.hasField (.obj []) "growthProjection" = false ∧
    (analyzeReviews { initialState with reviews := "The product is great" }
      none (.success (.parsed (.obj [])))).state.result = some (.obj []) ∧
    (analyzeReviews { initialState with reviews := "The product is great" }
      none (.success (.parsed (.obj [])))).state.error = none ∧
    (analyzeReviews { initialState with reviews := "The product is great" }
      none (.success (.parsed shortProjectionResponse))).state.result
      = some shortProjectionResponse ∧
    (analyzeReviews { initialState with reviews := "The product is great" }
      none (.success (.parsed shortProjectionResponse))).state.error = none :=
  ⟨rfl, rfl, rfl, rfl, rfl, rfl, rfl, rfl, rfl, rfl, rfl⟩

/-- C1, amended: the response handling fails only on a syntactically
unparseable body. Every body that parses to a JSON value `j` — regardless
of which fields `j` carries or how many growth-projection entries it has —
is accepted and stored verbatim with no error; a falsy body is treated as
the empty object and accepted; an unparseable body sets the generic error
and leaves the result unchanged. -/
theorem C1_amended (s : AppState) (t : Option String)
    (h : jsTrim (resolveText t s) ≠ "") :
    (∀ j : Json, (analyzeReviews s t (.success (.parsed j))).state.result = some j ∧
      (analyzeReviews s t (.success (.parsed j))).state.error = none) ∧
    ((analyzeReviews s t (.success .empty)).state.result = some (.obj []) ∧
      (analyzeReviews s t (.success .empty)).state.error = none) ∧
    ((analyzeReviews s t (.success .unparseable)).state.result = s.result ∧
      (analyzeReviews s t (.success .unparseable)).state.error
        = some analyzeFailMsg) := by
  refine ⟨fun j => ?_, ⟨?_, ?_⟩, ⟨?_, ?_⟩⟩ <;>
    rw [analyzeReviews_started _ _ _ h] <;>
    simp [completeAnalyze, parseBody]

/-- C1, witness for the amended theorem at a concrete state and body. -/
theorem C1_amended_witness :
    jsTrim (resolveText none { initialState with reviews := "great product" }) ≠ "" ∧
    (analyzeReviews { initialState with reviews := "great product" } none
      (.success (.parsed shortProjectionResponse))).state.result
      = some shortProjectionResponse :=
  ⟨by decide,
    (C1_amended { initialState with reviews := "great product" } none
      (by decide)).1 shortProjectionResponse |>.1⟩

set_option maxRecDepth 8192 in
/-- C2: evaluation at the failing input. While a generation call is in
flight (`isAnalyzing = true`), a paste of non-blank clipboard text makes a
second outbound generation call and overwrites the textarea state, and the
example button likewise makes a second call; only the generate button is a
no-op while analyzing (it is disabled). This contradicts the claimed
single-flight no-op on every entry path. -/
theorem C2_second_call_while_analyzing :
    analyzingState.isAnalyzing = true ∧
    (handlePaste analyzingState "hello world great product"
      (.success .empty)).calls = 1 ∧
    (handlePaste analyzingState "hello world great product"
      (.success .empty)).state.reviews = "hello world great product" ∧
    (exampleSubmit analyzingState (.success .empty)).calls = 1 ∧
    (buttonSubmit analyzingState (.success .empty)).calls = 0 := by
  refine ⟨rfl, rfl, rfl, ?_, rfl⟩
  rw [exampleSubmit, analyzeReviews_calls]
  decide

/-- C3, counterexample: after a failed submission from a state holding a
prior successful result, the prior result is retained alongside the new
error message, so a result and an error are retained at the same time. -/
theorem C3_counterexample :
    priorResultState.result = some (.obj [("sentiment", .str "Positive")]) ∧
    (analyzeReviews priorResultState none .failure).state.result
      = some (.obj [("sentiment", .str "Positive")]) ∧
    (analyzeReviews priorResultState none .failure).state.error
      = some analyzeFailMsg :=
  ⟨rfl, rfl, rfl⟩

/-- C3, amended: upon entering Analyzing the prior error is discarded but a
prior successful result is retained; on a failure transition the generic
error is set while the prior result, if any, stays retained alongside it;
the result is replaced only by a new successful parse. -/
theorem C3_amended (s : AppState) (t : Option String)
    (h : jsTrim (resolveText t s) ≠ "") :
    beginAnalyze s t = some { s with isAnalyzing := true, error := none } ∧
    (∀ o : GenOutcome, o = .failure ∨ o = .success .unparseable →
      (analyzeReviews s t o).state.result = s.result ∧
      (analyzeReviews s t o).state.error = some analyzeFailMsg) ∧
    (∀ j : Json,
      (analyzeReviews s t (.success (.parsed j))).state.result = some j) := by
  refine ⟨by simp [beginAnalyze, h], fun o ho => ?_, fun j => ?_⟩
  · rcases ho with ho | ho <;> subst ho <;>
      rw [analyzeReviews_started _ _ _ h] <;>
      simp [completeAnalyze, parseBody]
  · rw [analyzeReviews_started _ _ _ h]
    simp [completeAnalyze, parseBody]

/-- C3, witness for the amended theorem at a concrete state. -/
theorem C3_amended_witness :
    jsTrim (resolveText none priorResultState) ≠ "" ∧
    (analyzeReviews priorResultState none .failure).state.result
      = priorResultState.result :=
  ⟨by decide,
    ((C3_amended priorResultState none (by decide)).2.1 .failure
      (Or.inl rfl)).1⟩

/-- C4: a submission whose resolved text trims to empty (the empty string
or whitespace only) is a silent no-op: the state is returned unchanged —
in particular the analyzing flag, result, and error — no outbound call is
made, and nothing is logged. -/
theorem C4_blank_submit_noop (s : AppState) (t : Option String)
    (o : GenOutcome) (h : jsTrim (resolveText t s) = "") :
    analyzeReviews s t o = ⟨s, 0, false, none⟩ := by
  simp [analyzeReviews, beginAnalyze, h]

/-- C4, witness: submitting whitespace-only text from the initial state. -/
theorem C4_blank_submit_noop_witness :
    jsTrim (resolveText (some "   ") initialState) = "" ∧
    analyzeReviews initialState (some "   ") .failure
      = ⟨initialState, 0, false, none⟩ :=
  ⟨by decide, C4_blank_submit_noop initialState (some "   ") .failure (by decide)⟩

/-- C5: on every input the strength scorer returns exactly the label and
display width that the spec's threshold table assigns to the count of
non-empty whitespace-separated tokens, and the table's boundary values
0, 9, 10, 29, 30, 59, 60 map exactly as claimed; concretely, a nine-word
input scores Weak and a ten-word input scores Fair. -/
theorem C5_strength_scorer :
    (∀ s : String, ((reviewStrength s).label, (reviewStrength s).width)
        = specStrength (countWords s)) ∧
    specStrength 0 = ("Empty", "0%") ∧
    specStrength 9 = ("Weak", "25%") ∧
    specStrength 10 = ("Fair", "50%") ∧
    specStrength 29 = ("Fair", "50%") ∧
    specStrength 30 = ("Good", "75%") ∧
    specStrength 59 = ("Good", "75%") ∧
    specStrength 60 = ("Excellent", "100%") ∧
    (reviewStrength "one two three four five six seven eight nine").label
      = "Weak" ∧
    (reviewStrength "one two three four five six seven eight nine ten").label
      = "Fair" ∧
    (reviewStrength "   ").label = "Empty" ∧
    (reviewStrength "   ").width = "0%" := by
  refine ⟨fun s => ?_, by decide, by decide, by decide, by decide, by decide,
    by decide, by decide, by decide, by decide, by decide, by decide⟩
  simp only [reviewStrength, specStrength]
  split_ifs <;> simp_all

/-- C6: the annual increment estimate computed by the view is exactly the
spec's formula `round((projection[5].projected - projection[0].current) * 2.5)`,
and on the spec's concrete projection — six points, first current 5, sixth
projected 45 — it evaluates to `round((45 - 5) * 2.5) = 100`. -/
theorem C6_annual_increment :
    (∀ r : AnalysisResult, annualIncrementEstimate r = specAnnualIncrement r) ∧
    (sampleProjection.getD 0 ⟨"", 0, 0⟩).current = 5 ∧
    (sampleProjection.getD 5 ⟨"", 0, 0⟩).projected = 45 ∧
    sampleProjection.length = 6 ∧
    annualIncrementEstimate sampleResult = 100 := by
  refine ⟨fun r => rfl, rfl, rfl, rfl, ?_⟩
  norm_num [annualIncrementEstimate, sampleResult, sampleProjection, jsRound]

/-- C7: every failure of the generation call and every unparseable response
body produce the same single generic error message, reset the analyzing
flag, and log the underlying error internally; from the resulting state any
subsequent submission with non-blank text is accepted and makes its one
outbound call, so the failure state is not absorbing. -/
theorem C7_failure_handling (s : AppState) (t : Option String) (o : GenOutcome)
    (hval : jsTrim (resolveText t s) ≠ "")
    (hbad : o = .failure ∨ o = .success .unparseable) :
    (analyzeReviews s t o).state.error = some analyzeFailMsg ∧
    (analyzeReviews s t o).state.isAnalyzing = false ∧
    (analyzeReviews s t o).logged = true ∧
    (∀ (u : String) (o₂ : GenOutcome), u ≠ "" → jsTrim u ≠ "" →
      (analyzeReviews (analyzeReviews s t o).state (some u) o₂).calls = 1) := by
  have hmain : (analyzeReviews s t o).state.error = some analyzeFailMsg ∧
      (analyzeReviews s t o).state.isAnalyzing = false ∧
      (analyzeReviews s t o).logged = true := by
    rcases hbad with ho | ho <;> subst ho <;>
      rw [analyzeReviews_started _ _ _ hval] <;>
      simp [completeAnalyze, parseBody]
  refine ⟨hmain.1, hmain.2.1, hmain.2.2, fun u o₂ hu htr => ?_⟩
  exact analyzeReviews_calls _ _ _ (by rwa [resolveText_some _ _ hu])

/-- C7, witness: a transport failure on a concrete state, followed by an
accepted resubmission. -/
theorem C7_failure_handling_witness :
    jsTrim (resolveText none { initialState with reviews := "bad service" }) ≠ "" ∧
    (analyzeReviews { initialState with reviews := "bad service" } none
      .failure).state.error = some analyzeFailMsg ∧
    (analyzeReviews (analyzeReviews { initialState with reviews := "bad service" }
      none .failure).state (some "more reviews") (.success .empty)).calls = 1 :=
  ⟨by decide,
    (C7_failure_handling { initialState with reviews := "bad service" } none
      .failure (by decide) (Or.inl rfl)).1,
    (C7_failure_handling { initialState with reviews := "bad service" } none
      .failure (by decide) (Or.inl rfl)).2.2.2 "more reviews" (.success .empty)
      (by decide) (by decide)⟩

/-- C8: the built prompt states the declared input language inside the
literal marker `(Input Language: ...)`, embeds the raw review text verbatim
as a contiguous substring, and carries the explicit instruction to translate
non-English insights internally and emit the strategy in English; being a
function of its two arguments it is deterministic. -/
theorem C8_prompt_contents (text lang : String) :
    (∃ a b, buildPrompt text lang
        = a ++ ("(Input Language: " ++ lang ++ ")") ++ b) ∧
    (∃ a b, buildPrompt text lang = a ++ text ++ b) ∧
    (∃ a b, buildPrompt text lang = a ++ translateInstruction ++ b) ∧
    translateInstruction
      = "translate the core insights internally to provide the strategy in English" := by
  refine ⟨⟨"Analyze the following customer reviews ",
      promptAfterLangTail ++ text ++ promptFooter ++ translateInstruction ++ ".",
      ?_⟩,
    ⟨promptHeader ++ lang ++ promptAfterLang,
      promptFooter ++ translateInstruction ++ ".", ?_⟩,
    ⟨promptHeader ++ lang ++ promptAfterLang ++ text ++ promptFooter, ".", ?_⟩,
    rfl⟩
  · have h2 : promptAfterLang = ")" ++ promptAfterLangTail := rfl
    simp [buildPrompt, promptHeader, h2, String.append_assoc, headerSplit]
  · simp [buildPrompt, String.append_assoc]
  · simp [buildPrompt, String.append_assoc]

/-- C9: a falsy explicit argument to the submission function is not treated
as a submission of empty text: the empty-string argument behaves exactly as
no argument (the textarea state is analyzed instead, and when that state is
non-blank the call goes out), while a non-empty explicit argument is used
as given. -/
theorem C9_falsy_fallback :
    (∀ (s : AppState) (o : GenOutcome),
      analyzeReviews s (some "") o = analyzeReviews s none o) ∧
    (∀ (s : AppState) (t : String), t ≠ "" → resolveText (some t) s = t) ∧
    (∀ (s : AppState) (o : GenOutcome), jsTrim s.reviews ≠ "" →
      (analyzeReviews s (some "") o).calls = 1) := by
  refine ⟨fun s o => rfl, fun s t ht => resolveText_some s t ht,
    fun s o h => analyzeReviews_calls s (some "") o h⟩

/-- C9, witness: the empty-string argument on a state with non-blank
textarea contents still makes the call. -/
theorem C9_falsy_fallback_witness :
    jsTrim ({ initialState with reviews := "solid product" } : AppState).reviews ≠ "" ∧
    (analyzeReviews { initialState with reviews := "solid product" }
      (some "") .failure).calls = 1 :=
  ⟨by decide,
    C9_falsy_fallback.2.2 { initialState with reviews := "solid product" }
      .failure (by decide)⟩

/-- C10: a paste whose clipboard text trims to non-empty replaces the
textarea state with the pasted text and immediately submits exactly that
text (one outbound call, and the submitted request resolves to the pasted
text, not the previous state); a paste trimming to empty changes nothing
and makes no call. -/
theorem C10_paste_behavior (s : AppState) (p : String) (o : GenOutcome) :
    (jsTrim p ≠ "" →
      handlePaste s p o
          = analyzeReviews { s with reviews := p } (some p) o ∧
      resolveText (some p) { s with reviews := p } = p ∧
      (handlePaste s p o).calls = 1 ∧
      (handlePaste s p o).state.reviews = p) ∧
    (jsTrim p = "" → handlePaste s p o = ⟨s, 0, false, none⟩) := by
  constructor
  · intro h
    have heq : handlePaste s p o
        = analyzeReviews { s with reviews := p } (some p) o := by
      simp [handlePaste, h]
    have hres := resolveText_self s p
    refine ⟨heq, hres, ?_, ?_⟩
    · rw [heq]
      exact analyzeReviews_calls _ _ _ (by rwa [hres])
    · rw [heq, analyzeReviews_started _ _ _ (by rwa [hres])]
      exact completeAnalyze_reviews _ _
  · intro h
    simp [handlePaste, h]

/-- C10, witness: a concrete non-blank paste during idle state. -/
theorem C10_paste_behavior_witness :
    jsTrim "great quality" ≠ "" ∧
    (handlePaste initialState "great quality" (.success .empty)).calls = 1 ∧
    (handlePaste initialState "great quality" (.success .empty)).state.reviews
      = "great quality" :=
  ⟨by decide,
    ((C10_paste_behavior initialState "great quality" (.success .empty)).1
      (by decide)).2.2.1,
    ((C10_paste_behavior initialState "great quality" (.success .empty)).1
      (by decide)).2.2.2⟩

end SaleSquid
